import Mathlib

/-!
Shallow embedding of the finding normalization/mapping pipeline of the
poc-gitlab-cicd-sast repository (scripts/dast-defectdojo-enhanced.py,
scripts/upload-reports-enhanced.py, scripts/zap-xml-defectdojo-uploader.py),
together with theorems settling the frozen claims about it.

Conventions:
  * Python dict/attribute values that may be absent are `Option`;
    Python string truthiness is `pyTruthy` (absent or empty string is falsy).
  * Code that can raise is embedded in `Except PyErr`; a `try/except`
    catching everything maps the error case to the handler's result.
  * `datetime.now()`-derived strings are explicit parameters (`today`).
  * Logging has no observable effect and is not modelled.
-/

/-- Exceptions the embedded code paths can raise. -/
inductive PyErr where
  | valueError
  | attributeError
deriving DecidableEq, Repr

/-- Python truthiness of an optional string: `None` and `""` are falsy. -/
def pyTruthy : Option String → Bool
  | none => false
  | some s => s ≠ ""

/-- ASCII decimal digit test (`'0' ≤ c ≤ '9'`). -/
def isAsciiDigit (c : Char) : Bool := '0' ≤ c && c ≤ '9'

/-- Whitespace stripped by Python `int(str)` (ASCII subset; the exotic
Unicode space forms never occur in the fields at issue). -/
def pySpace (c : Char) : Bool := c = ' ' || c = '\t' || c = '\n' || c = '\r'

/-- No two consecutive underscores in the digit body (Python grouping rule). -/
def noDoubleUnderscore : List Char → Bool
  | [] => true
  | [_] => true
  | a :: b :: t => !(a = '_' && b = '_') && noDoubleUnderscore (b :: t)

/-- A valid Python integer-literal digit body: nonempty, ASCII digits with
optional single underscores strictly between digits. -/
def pyDigitsOk (cs : List Char) : Bool :=
  !cs.isEmpty &&
  cs.all (fun c => isAsciiDigit c || c = '_') &&
  (cs.head?.all (· ≠ '_')) &&
  (cs.getLast?.all (· ≠ '_')) &&
  noDoubleUnderscore cs

/-- Value of an ASCII digit list, most significant first. -/
def natOfDigits (cs : List Char) : Nat :=
  cs.foldl (fun n c => n * 10 + (c.toNat - 48)) 0

/-- Embedding of Python `int(s)` on strings: strips surrounding whitespace,
accepts an optional sign and a digit body with underscore grouping;
every other string raises `ValueError` (`none`). -/
def pyInt? (s : String) : Option Int :=
  let t := ((s.data.dropWhile pySpace).reverse.dropWhile pySpace).reverse
  let signBody : Int × List Char :=
    match t with
    | '-' :: rest => (-1, rest)
    | '+' :: rest => (1, rest)
    | _ => (1, t)
  if pyDigitsOk signBody.2 then
    some (signBody.1 * Int.ofNat (natOfDigits (signBody.2.filter (· ≠ '_'))))
  else
    none

/-- Embedding of Python `str.isdigit()` for the ASCII strings at issue:
nonempty and all decimal digits. -/
def pyIsdigit (s : String) : Bool := !s.isEmpty && s.data.all isAsciiDigit

/-- Embedding of `s.lower()` (ASCII case folding; the mapped category
labels are ASCII). -/
def pyLower (s : String) : String := String.mk (s.data.map Char.toLower)

/-- Embedding of `s.replace(' ', '-')` (single-character replacement). -/
def pyReplaceSpaceDash (s : String) : String :=
  String.mk (s.data.map fun c => if c = ' ' then '-' else c)

/-- Embedding of Python `pre_.startswith(s)`-style prefix test:
`pyStartsWith s pre = true` iff `pre` is a prefix of `s`. -/
def pyStartsWith (s pre : String) : Bool := pre.data.isPrefixOf s.data

/- ### Severity mappers (claims C1, C6) -/

/-- The `risk_mapping` dict of
`DASTDefectDojoUploader.map_zap_risk_to_severity`
(scripts/dast-defectdojo-enhanced.py, lines 155-160). -/
def risk_mapping_dast : List (String × String) :=
  [("High", "Critical"), ("Medium", "High"), ("Low", "Medium"),
   ("Informational", "Low")]

/-- `DASTDefectDojoUploader.map_zap_risk_to_severity`
(scripts/dast-defectdojo-enhanced.py, lines 153-161):
`risk_mapping.get(zap_risk, 'Info')`. -/
def map_zap_risk_to_severity_dast (zap_risk : String) : String :=
  (risk_mapping_dast.lookup zap_risk).getD "Info"

/-- The `risk_mapping` dict of `DefectDojoUploader.map_zap_risk_to_severity`
(scripts/upload-reports-enhanced.py, lines 182-188). -/
def risk_mapping_upload : List (String × String) :=
  [("High", "High"), ("Critical", "Critical"), ("Medium", "Medium"),
   ("Low", "Low"), ("Informational", "Info")]

/-- `DefectDojoUploader.map_zap_risk_to_severity`
(scripts/upload-reports-enhanced.py, lines 180-189):
`risk_mapping.get(zap_risk, 'Low')`. -/
def map_zap_risk_to_severity_upload (zap_risk : String) : String :=
  (risk_mapping_upload.lookup zap_risk).getD "Low"

/- ### OWASP category mappers (claim C9) -/

/-- The `owasp_mapping` dict of
`DASTDefectDojoUploader.extract_owasp_category`
(scripts/dast-defectdojo-enhanced.py, lines 169-190). -/
def wasc_mapping : List (String × String) :=
  [("WASC-1", "Path Traversal"), ("WASC-2", "SQL Injection"),
   ("WASC-3", "XSS"), ("WASC-4", "Cross-Site Request Forgery"),
   ("WASC-5", "Server-Side Include"), ("WASC-6", "Session Hijacking"),
   ("WASC-7", "Buffer Overflow"), ("WASC-8", "Weak Authentication"),
   ("WASC-9", "Transport Layer Security"),
   ("WASC-10", "Insecure Cryptographic Storage"),
   ("WASC-11", "Insufficient Authorization"),
   ("WASC-12", "Denial of Service"),
   ("WASC-13", "Improper Input Validation"),
   ("WASC-14", "Information Leakage"),
   ("WASC-15", "Broken Authentication"),
   ("WASC-16", "Broken Access Control"),
   ("WASC-17", "Server-Side Request Forgery"),
   ("WASC-18", "XML External Entity"),
   ("WASC-19", "Insecure Deserialization"),
   ("WASC-20", "Security Misconfiguration")]

/-- `DASTDefectDojoUploader.extract_owasp_category`
(scripts/dast-defectdojo-enhanced.py, lines 163-192).
`if not reference: return "Unknown"`, then
`owasp_mapping.get(reference, reference or "Other")`: the default argument
is `reference or "Other"`, i.e. the input itself when it is truthy. -/
def extract_owasp_category (reference : String) : String :=
  if reference = "" then "Unknown"
  else (wasc_mapping.lookup reference).getD
    (if reference ≠ "" then reference else "Other")

/-- The `owasp_mapping` dict of `DefectDojoUploader.get_owasp_mapping`
(scripts/upload-reports-enhanced.py, lines 193-204). -/
def owasp_name_mapping : List (String × String) :=
  [("Cross Site Scripting", "A03:2021-Injection"),
   ("SQL Injection", "A03:2021-Injection"),
   ("X-Content-Type-Options header missing",
    "A05:2021-Security Misconfiguration"),
   ("Cookie without SameSite Attribute",
    "A05:2021-Security Misconfiguration"),
   ("CSP Scanner: Content Security Policy Not Implemented",
    "A05:2021-Security Misconfiguration"),
   ("X-Frame-Options header not set",
    "A05:2021-Security Misconfiguration"),
   ("Absence of Anti-CSRF Tokens", "A01:2021-Broken Access Control"),
   ("Cross Domain Script Inclusion",
    "A05:2021-Security Misconfiguration"),
   ("Content Type Missing", "A05:2021-Security Misconfiguration"),
   ("Cookie without Secure Flag", "A05:2021-Security Misconfiguration")]

/-- `DefectDojoUploader.get_owasp_mapping`
(scripts/upload-reports-enhanced.py, lines 191-205):
`owasp_mapping.get(alert_name, None)`. -/
def get_owasp_mapping (alert_name : String) : Option String :=
  owasp_name_mapping.lookup alert_name

/- ### ZAP JSON data model (claims C3, C4, C5, C10) -/

/-- One entry of a ZAP JSON alert's `instances` list.  Fields the scripts
read via `instance.get(...)`; absent keys are `none`. -/
structure ZapInstance where
  uri : Option String := none
  method : Option String := none
  param : Option String := none
  attack : Option String := none
  evidence : Option String := none
  request : Option String := none
  response : Option String := none
deriving DecidableEq, Repr

/-- One ZAP JSON alert (`site.alerts[i]`).  Fields the scripts read via
`alert.get(...)`; absent keys are `none`; a missing `instances` key reads
as the empty list (the code's default). -/
structure ZapAlert where
  name : Option String := none
  risk : Option String := none
  desc : Option String := none
  reference : Option String := none
  solution : Option String := none
  riskdesc : Option String := none
  cweid : Option String := none
  pluginid : Option String := none
  instances : List ZapInstance := []
deriving DecidableEq, Repr

/-- One entry of the top-level `site` list of a ZAP JSON report.
`atName` is the site's `@name` key. -/
structure ZapSite where
  atName : Option String := none
  alerts : List ZapAlert := []
deriving DecidableEq, Repr

/- ### DAST-enhanced JSON finding extractor
(scripts/dast-defectdojo-enhanced.py, claims C3, C4, C5) -/

/-- `DASTDefectDojoUploader._determine_confidence`
(scripts/dast-defectdojo-enhanced.py, lines 406-419). -/
def determine_confidence (alert : ZapAlert) : String :=
  let risk := alert.risk.getD "Low"
  let plugin_id := alert.pluginid.getD ""
  if risk = "High" then "High"
  else if risk = "Medium" then "Medium"
  else if plugin_id ≠ "" then "Medium"
  else "Low"

/-- `DASTDefectDojoUploader._build_enhanced_description`
(scripts/dast-defectdojo-enhanced.py, lines 337-368). -/
def build_enhanced_description (alert : ZapAlert) (inst : ZapInstance) :
    String :=
  let base_description := alert.desc.getD ""
  let tech_details : List String :=
    (if pyTruthy inst.method then
      ["HTTP Method: " ++ inst.method.getD ""] else []) ++
    (if pyTruthy inst.param then
      ["Parameter: " ++ inst.param.getD ""] else []) ++
    (if pyTruthy inst.attack then
      ["Attack Pattern: " ++ inst.attack.getD ""] else []) ++
    (if pyTruthy inst.evidence then
      ["Evidence: " ++ inst.evidence.getD ""] else [])
  let description :=
    if !tech_details.isEmpty then
      base_description ++ "\n\n**Technical Details:**\n" ++
        String.join (tech_details.map fun d => "- " ++ d ++ "\n")
    else base_description
  if pyTruthy alert.reference then
    description ++ "\n\n**Reference:** " ++ alert.reference.getD ""
  else description

/-- The `impact_mapping` dict of
`DASTDefectDojoUploader._build_impact_statement`
(scripts/dast-defectdojo-enhanced.py, lines 376-381). -/
def impact_mapping : List (String × String) :=
  [("High", "This vulnerability poses a significant security risk and could lead to complete system compromise, data breach, or unauthorized access to sensitive information."),
   ("Medium", "This vulnerability could lead to unauthorized access to data or functionality, potentially compromising user privacy or system integrity."),
   ("Low", "This vulnerability represents a minor security issue that may provide limited information or access but poses minimal risk."),
   ("Informational", "This finding provides information about the application but does not represent an immediate security risk.")]

/-- `DASTDefectDojoUploader._build_impact_statement`
(scripts/dast-defectdojo-enhanced.py, lines 370-388). -/
def build_impact_statement (alert : ZapAlert) : String :=
  let risk := alert.risk.getD "Low"
  let base_impact := alert.riskdesc.getD ""
  let specific_impact := (impact_mapping.lookup risk).getD ""
  if specific_impact ≠ "" then base_impact ++ "\n\n" ++ specific_impact
  else base_impact

/-- One entry of `urls_detailed`
(`DASTDefectDojoUploader._extract_url_details`). -/
structure UrlDetail where
  url : String
  method : String
  parameter : String
  attack : String
  evidence : String
deriving DecidableEq, Repr

/-- `DASTDefectDojoUploader._extract_url_details`
(scripts/dast-defectdojo-enhanced.py, lines 390-404). -/
def extract_url_details (instances : List ZapInstance) : List UrlDetail :=
  instances.map fun inst =>
    { url := inst.uri.getD ""
      method := inst.method.getD ""
      parameter := inst.param.getD ""
      attack := inst.attack.getD ""
      evidence := inst.evidence.getD "" }

/-- `DASTDefectDojoUploader._generate_finding_tags`
(scripts/dast-defectdojo-enhanced.py, lines 421-439). -/
def generate_finding_tags (alert : ZapAlert) (owasp_category : String) :
    List String :=
  ["dast", "zap", "automated", "dynamic-analysis"] ++
  (if owasp_category ≠ "" && owasp_category ≠ "Unknown" then
    ["owasp-" ++ pyReplaceSpaceDash (pyLower owasp_category)] else []) ++
  (let risk := pyLower (alert.risk.getD "")
   if risk ≠ "" then ["risk-" ++ risk] else []) ++
  (let plugin_id := alert.pluginid.getD ""
   if plugin_id ≠ "" then ["plugin-" ++ plugin_id] else [])

/-- The `found_by` contact entry of the DAST finding dict
(scripts/dast-defectdojo-enhanced.py, lines 322-327). -/
structure FoundBy where
  name : String
  email : String
deriving DecidableEq, Repr

/-- The finding dict built by
`DASTDefectDojoUploader._create_finding_from_alert`
(scripts/dast-defectdojo-enhanced.py, lines 295-329).  `M` is the type of
the `scan_metadata` argument, stored verbatim.  The source dict writes the
key `mitigated` twice (`False` at line 307, then `None` at line 318); the
later write wins, so the field is `Option Bool` valued `none`. -/
structure DastFinding (M : Type) where
  title : String
  description : String
  severity : String
  cwe : Int
  owasp : String
  references : String
  solution : String
  impact : String
  false_positive : Bool
  duplicate : Bool
  out_of_scope : Bool
  mitigation_steps : String
  impact_details : String
  test_type : String
  confidence : String
  finding_type : String
  static_finding : Bool
  dynamic_finding : Bool
  active : Bool
  verified : Bool
  risk_accepted : Bool
  mitigated : Option Bool
  urls_detailed : List UrlDetail
  tags : List String
  date : String
  found_by : List FoundBy
  scan_metadata : M
deriving DecidableEq, Repr

/-- Body of `DASTDefectDojoUploader._create_finding_from_alert`
(scripts/dast-defectdojo-enhanced.py, lines 270-331) up to but excluding
its `except` handler.  `today` is `datetime.now().strftime('%Y-%m-%d')`.
`return None` on an empty `instances` list is `.ok none`;
`int(alert.get('cweid', 0))` on a truthy non-numeric `cweid` raises
`ValueError`. -/
def create_finding_from_alert_body {M : Type} (scan_metadata : M)
    (today : String) (alert : ZapAlert) :
    Except PyErr (Option (DastFinding M)) := do
  match alert.instances with
  | [] => return none
  | primary_instance :: _ =>
    let owasp_category := extract_owasp_category (alert.reference.getD "")
    let cwe_id : Int ←
      if pyTruthy alert.cweid then
        match pyInt? (alert.cweid.getD "") with
        | some n => pure n
        | none => throw PyErr.valueError
      else pure 0
    let description := build_enhanced_description alert primary_instance
    let urls_detailed := extract_url_details alert.instances
    let confidence := determine_confidence alert
    return some
      { title := alert.name.getD "Unknown ZAP Finding"
        description := description
        severity := map_zap_risk_to_severity_dast (alert.risk.getD "Low")
        cwe := cwe_id
        owasp := owasp_category
        references := alert.reference.getD ""
        solution := alert.solution.getD ""
        impact := build_impact_statement alert
        false_positive := false
        duplicate := false
        out_of_scope := false
        mitigation_steps := alert.solution.getD ""
        impact_details := alert.riskdesc.getD ""
        test_type := "DAST"
        confidence := confidence
        finding_type := "Vulnerability"
        static_finding := false
        dynamic_finding := true
        active := true
        verified := false
        risk_accepted := false
        mitigated := none
        urls_detailed := urls_detailed
        tags := generate_finding_tags alert owasp_category
        date := today
        found_by := [{ name := "DAST Standalone Scanner",
                       email := "security@example.com" }]
        scan_metadata := scan_metadata }

/-- `DASTDefectDojoUploader._create_finding_from_alert`
(scripts/dast-defectdojo-enhanced.py, lines 270-335): the surrounding
`try/except Exception` turns any raised error into a logged warning and
`None`. -/
def create_finding_from_alert {M : Type} (scan_metadata : M)
    (today : String) (alert : ZapAlert) : Option (DastFinding M) :=
  match create_finding_from_alert_body scan_metadata today alert with
  | .ok r => r
  | .error _ => none

/-- The findings-assembly portion of
`DASTDefectDojoUploader.process_zap_dast_report`
(scripts/dast-defectdojo-enhanced.py, lines 206-216): when the `site`
list is nonempty, only `sites[0]` is read; each of its alerts is passed
to `_create_finding_from_alert` and truthy results are appended. -/
def process_zap_dast_report_findings {M : Type} (scan_metadata : M)
    (today : String) (sites : List ZapSite) : List (DastFinding M) :=
  match sites with
  | [] => []
  | site :: _ =>
    site.alerts.filterMap (create_finding_from_alert scan_metadata today)

/- ### Plain-enhanced JSON finding extraction
(scripts/upload-reports-enhanced.py, claims C3, C4, C10) -/

/-- The finding dict built inline in
`DefectDojoUploader.process_zap_dast_report`
(scripts/upload-reports-enhanced.py, lines 130-163).  The source dict
writes the key `mitigated` twice (`None` at line 140, then `False` at
line 149); the later write wins, so the field is `Bool` valued `false`. -/
structure UploadFinding where
  title : String
  description : String
  severity : String
  cwe : Option Int
  references : String
  solution : String
  false_positive : Bool
  duplicate : Bool
  out_of_scope : Bool
  impact : String
  confidence : String
  finding_type : String
  test_type : String
  static_finding : Bool
  dynamic_finding : Bool
  active : Bool
  verified : Bool
  mitigated : Bool
  url : String
  param : String
  attack : String
  evidence : String
  request : String
  response : String
  scanner_confidence : String
  owasp_top_10 : Option String
  tags : List String
deriving DecidableEq, Repr

/-- The finding dict construction of
`DefectDojoUploader.process_zap_dast_report` for one alert with a
nonempty `instances` list (scripts/upload-reports-enhanced.py,
lines 128-163).  `int(alert.get('cweid', 0))` on a truthy non-numeric
`cweid` raises `ValueError`, which propagates out of the per-alert loop
(there is no per-alert handler in this script). -/
def build_upload_finding (site : ZapSite) (alert : ZapAlert)
    (inst : ZapInstance) : Except PyErr UploadFinding := do
  let cwe : Option Int ←
    if pyTruthy alert.cweid then
      match pyInt? (alert.cweid.getD "") with
      | some n => pure (some n)
      | none => throw PyErr.valueError
    else pure none
  return {
      title := alert.name.getD "Unknown ZAP Finding"
      description := alert.desc.getD ""
      severity := map_zap_risk_to_severity_upload (alert.risk.getD "Low")
      cwe := cwe
      references := alert.reference.getD ""
      solution := alert.solution.getD ""
      false_positive := false
      duplicate := false
      out_of_scope := false
      impact := alert.risk.getD "Low"
      confidence := "High"
      finding_type := "Vulnerability"
      test_type := "DAST"
      static_finding := false
      dynamic_finding := true
      active := true
      verified := false
      mitigated := false
      url := site.atName.getD ""
      param := inst.param.getD ""
      attack := inst.attack.getD ""
      evidence := inst.evidence.getD ""
      request := inst.request.getD ""
      response := inst.response.getD ""
      scanner_confidence := "High"
      owasp_top_10 := get_owasp_mapping (alert.name.getD "")
      tags := ["DAST", "OWASP ZAP", "Web Application"] }

/-- One iteration of the `for alert in alerts` loop of
`DefectDojoUploader.process_zap_dast_report`
(scripts/upload-reports-enhanced.py, lines 124-165): alerts with an
empty `instances` list are skipped, otherwise the finding built from the
first instance is appended. -/
def upload_alert_step (site : ZapSite) (acc : List UploadFinding)
    (alert : ZapAlert) : Except PyErr (List UploadFinding) :=
  match alert.instances with
  | [] => pure acc
  | inst :: _ => do
    let f ← build_upload_finding site alert inst
    pure (acc ++ [f])

/-- The findings-assembly portion of
`DefectDojoUploader.process_zap_dast_report`
(scripts/upload-reports-enhanced.py, lines 117-165): when the `site`
list is nonempty only `sites[0]` is read and its alerts are folded in
order; a raised `ValueError` escapes to the function-level `except`
(which makes the whole report fail with `False`). -/
def process_zap_dast_report_upload (sites : List ZapSite) :
    Except PyErr (List UploadFinding) :=
  match sites with
  | [] => pure []
  | site :: _ => site.alerts.foldlM (upload_alert_step site) []

/- ### Upload orchestrator: product and engagement lookup-or-create
(claims C7, C8).  The remote REST client is an external collaborator,
modelled by the responses it returns; the embedding additionally records
the trace of requests issued. -/

/-- A request issued to the remote API. -/
inductive ApiReq where
  | get
  | post
deriving DecidableEq, Repr

/-- A remote entity as it appears in a search response's `results` list:
its `id`, and (for engagements) its `target_start` string. -/
structure RemoteEntity where
  id : Nat
  target_start : String := ""
deriving DecidableEq, Repr

/-- The collaborator's response to the search GET: HTTP status and the
`results` list of the JSON body. -/
structure SearchResp where
  status : Nat
  results : List RemoteEntity
deriving DecidableEq, Repr

/-- The collaborator's response to the creation POST: HTTP status and the
`id` field of the JSON body. -/
structure CreateResp where
  status : Nat
  id : Nat
deriving DecidableEq, Repr

/-- The creation half of `DefectDojoUploader.create_product_if_not_exists`
(scripts/upload-reports-enhanced.py, lines 33-50): POST, then adopt the
id on 201, otherwise the failure sentinel `None`. -/
def product_create_step (post : CreateResp) : List ApiReq × Option Nat :=
  ([ApiReq.get, ApiReq.post],
   if post.status = 201 then some post.id else none)

/-- `DefectDojoUploader.create_product_if_not_exists`
(scripts/upload-reports-enhanced.py, lines 20-50; the control flow of
`DASTDefectDojoUploader.create_product_if_not_exists` in
scripts/dast-defectdojo-enhanced.py, lines 68-105, is identical, only the
POST payload differs): GET the name search; on a 200 with a nonempty
`results` list return the first result's id; otherwise POST a creation
request and return the id from a 201 body, else `None`.  The first trace
component is the sequence of requests issued. -/
def create_product_if_not_exists (search : SearchResp)
    (post : CreateResp) : List ApiReq × Option Nat :=
  if search.status = 200 then
    match search.results with
    | r :: _ => ([ApiReq.get], some r.id)
    | [] => product_create_step post
  else product_create_step post

/-- The creation half of
`DefectDojoUploader.create_engagement_if_not_exists`
(scripts/upload-reports-enhanced.py, lines 67-88). -/
def engagement_create_step (post : CreateResp) :
    List ApiReq × Option Nat :=
  ([ApiReq.get, ApiReq.post],
   if post.status = 201 then some post.id else none)

/-- `DefectDojoUploader.create_engagement_if_not_exists`
(scripts/upload-reports-enhanced.py, lines 52-88; the control flow of
`ZAPXMLDefectDojoUploader.create_engagement_if_not_exists` in
scripts/zap-xml-defectdojo-uploader.py, lines 307-343, is identical,
only the POST payload differs).  `today` is
`datetime.now().strftime('%Y-%m-%d')`.  GET the name+product search; on a
200, return the id of the first result whose `target_start` starts with
`today`; when no result matches (or the GET was not a 200), POST a
creation request and return the id from a 201 body, else `None`. -/
def create_engagement_if_not_exists (today : String)
    (search : SearchResp) (post : CreateResp) : List ApiReq × Option Nat :=
  if search.status = 200 then
    match search.results.find? (fun e => pyStartsWith e.target_start today)
    with
    | some e => ([ApiReq.get], some e.id)
    | none => engagement_create_step post
  else engagement_create_step post

/- ### ZAP XML data model and parser
(scripts/zap-xml-defectdojo-uploader.py, claims C2, C5) -/

/-- An `xml.etree.ElementTree` element: tag (namespace-qualified as
`\x7buri\x7dlocal` when the document declares one), attribute dict,
text content, and child elements in document order. -/
inductive XElem where
  | node (tag : String) (attrib : List (String × String))
         (text : Option String) (children : List XElem)

/-- The element's tag. -/
def XElem.tag : XElem → String
  | .node t _ _ _ => t

/-- The element's attribute dict. -/
def XElem.attrib : XElem → List (String × String)
  | .node _ a _ _ => a

/-- The element's text content (`None` when absent). -/
def XElem.text : XElem → Option String
  | .node _ _ t _ => t

/-- The element's children in document order. -/
def XElem.children : XElem → List XElem
  | .node _ _ _ cs => cs

mutual
/-- All proper descendants of an element in document order (what an
ElementTree `.//` path ranges over). -/
def XElem.descendants : XElem → List XElem
  | .node _ _ _ cs => descendantsList cs
/-- Concatenation of `c :: c.descendants` over a child list. -/
def descendantsList : List XElem → List XElem
  | [] => []
  | c :: cs => c :: (XElem.descendants c ++ descendantsList cs)
end

/-- The qualified tag an ElementTree path token `zap:tag` compiles to
under the namespace dict `{'zap': ns}`: `\x7bns\x7dtag`, which for the
empty namespace matches the plain tag (Python >= 3.8 treats `\x7b\x7dtag`
as `tag`). -/
def qualifyTag (ns tag : String) : String :=
  if ns = "" then tag else "\x7b" ++ ns ++ "\x7d" ++ tag

/-- `element.findall('.//' + path, ns)`: all descendants with the
compiled tag, in document order. -/
def findallDesc (e : XElem) (t : String) : List XElem :=
  e.descendants.filter (fun c => c.tag = t)

/-- `element.find('.//' + path, ns)`: the first such descendant. -/
def findDesc (e : XElem) (t : String) : Option XElem :=
  (findallDesc e t).head?

/-- The attributes and methods an `xml.etree.ElementTree.Element` object
exposes (CPython).  Notably `nsmap` is NOT among them: `nsmap` is an
lxml.etree API.  Accessing a missing attribute raises `AttributeError`. -/
def elementTreeAttrs : List String :=
  ["tag", "text", "tail", "attrib", "append", "extend", "insert",
   "remove", "find", "findall", "findtext", "iter", "iterfind", "clear",
   "get", "set", "keys", "items", "makeelement", "itertext"]

/-- The expression `element.nsmap` evaluated on an ElementTree element:
`nsmap` is not an Element attribute, so this raises `AttributeError`.
(The `.ok` branch returns the attribute's value — an empty prefix dict —
and is unreachable.) -/
def pyGetattrNsmap (_element : XElem) :
    Except PyErr (List (String × String)) :=
  if elementTreeAttrs.contains "nsmap" then .ok []
  else .error PyErr.attributeError

/-- `ZAPXMLDefectDojoUploader._get_xml_text`
(scripts/zap-xml-defectdojo-uploader.py, lines 240-243):
`element.find(f'.//zap:\x7btag\x7d', \x7b'zap': element.nsmap.get('zap', '')\x7d)`
— the argument expression `element.nsmap` is evaluated first and raises
`AttributeError` on every call; the remainder (the intended namespace
lookup and text extraction) is dead code. -/
def get_xml_text (element : XElem) (tag : String) (default : String) :
    Except PyErr String := do
  let nsmap ← pyGetattrNsmap element
  let ns := (nsmap.lookup "zap").getD ""
  match findDesc element (qualifyTag ns tag) with
  | some found =>
    if pyTruthy found.text then pure (found.text.getD "") else pure default
  | none => pure default

/-- `ZAPXMLDefectDojoUploader._map_risk_code_to_level`
(scripts/zap-xml-defectdojo-uploader.py, lines 245-258): `int(risk_code)`
with `ValueError`/`TypeError` falling back to `'Low'`. -/
def map_risk_code_to_level (risk_code : String) : String :=
  match pyInt? risk_code with
  | some code =>
    if code ≥ 4 then "High"
    else if code = 3 then "Medium"
    else if code = 2 then "Low"
    else "Informational"
  | none => "Low"

/-- `ZAPXMLDefectDojoUploader._map_confidence_to_level`
(scripts/zap-xml-defectdojo-uploader.py, lines 260-273). -/
def map_confidence_to_level (confidence : String) : String :=
  match pyInt? confidence with
  | some conf =>
    if conf ≥ 4 then "High"
    else if conf = 3 then "Medium"
    else if conf = 2 then "Low"
    else "Low"
  | none => "Low"

/-- The `severity_mapping` dict of `ZAPXMLDefectDojoUploader.__init__`
(scripts/zap-xml-defectdojo-uploader.py, lines 85-91). -/
def severity_mapping_xml : List (String × String) :=
  [("High", "High"), ("Critical", "Critical"), ("Medium", "Medium"),
   ("Low", "Low"), ("Informational", "Info")]

/-- The `owasp_mapping` dict of `ZAPXMLDefectDojoUploader.__init__`
(scripts/zap-xml-defectdojo-uploader.py, lines 38-82). -/
def owasp_mapping_xml : List (String × String) :=
  [("Cross Site Scripting", "A01:2021-Broken Access Control"),
   ("Cross Domain Script Inclusion", "A01:2021-Broken Access Control"),
   ("Absence of Anti-CSRF Tokens", "A01:2021-Broken Access Control"),
   ("CSP Scanner: Content Security Policy Not Implemented",
    "A01:2021-Broken Access Control"),
   ("Cookie without SameSite Attribute",
    "A01:2021-Broken Access Control"),
   ("SQL Injection", "A03:2021-Injection"),
   ("Command Injection", "A03:2021-Injection"),
   ("LDAP Injection", "A03:2021-Injection"),
   ("XPath Injection", "A03:2021-Injection"),
   ("Server Side Include", "A03:2021-Injection"),
   ("Insecure Design", "A04:2021-Insecure Design"),
   ("X-Content-Type-Options header missing",
    "A05:2021-Security Misconfiguration"),
   ("X-Frame-Options header not set",
    "A05:2021-Security Misconfiguration"),
   ("Content Type Missing", "A05:2021-Security Misconfiguration"),
   ("Cookie without Secure Flag", "A05:2021-Security Misconfiguration"),
   ("Reverse Tabnabbing", "A05:2021-Security Misconfiguration"),
   ("Cookie without HttpOnly Flag",
    "A05:2021-Security Misconfiguration"),
   ("Outdated Component",
    "A06:2021-Vulnerable and Outdated Components"),
   ("Vulnerable Component",
    "A06:2021-Vulnerable and Outdated Components"),
   ("Authentication Bypass",
    "A07:2021-Identification and Authentication Failures"),
   ("Weak Authentication",
    "A07:2021-Identification and Authentication Failures"),
   ("Session Fixation",
    "A07:2021-Identification and Authentication Failures"),
   ("Software and Data Integrity Failures",
    "A08:2021-Software and Data Integrity Failures"),
   ("Insecure Deserialization",
    "A08:2021-Software and Data Integrity Failures"),
   ("Security Logging and Monitoring Failures",
    "A09:2021-Security Logging and Monitoring Failures"),
   ("Server Side Request Forgery",
    "A10:2021-Server-Side Request Forgery")]

/-- The `plugin_id` value of an XML finding:
`int(plugin_id) if plugin_id.isdigit() else plugin_id`. -/
inductive PluginId where
  | asInt (n : Int)
  | asStr (s : String)
deriving DecidableEq, Repr

/-- The finding dict built by
`ZAPXMLDefectDojoUploader._extract_finding_from_alert`
(scripts/zap-xml-defectdojo-uploader.py, lines 167-194 and 203-234).
The keys `param`, `attack`, `evidence`, `method` are present only in the
with-instance dict (lines 203-234); `none` models their absence in the
no-instance dict. -/
structure XmlFinding where
  title : String
  description : String
  severity : String
  cwe : Option Int
  references : String
  solution : String
  false_positive : Bool
  duplicate : Bool
  out_of_scope : Bool
  mitigated : Option Bool
  impact : String
  confidence : String
  finding_type : String
  test_type : String
  static_finding : Bool
  dynamic_finding : Bool
  active : Bool
  verified : Bool
  scanner_confidence : String
  owasp_top_10 : Option String
  tags : List String
  url : String
  param : Option String
  attack : Option String
  evidence : Option String
  method : Option String
  plugin_id : PluginId
  wasc_id : Option Int
deriving DecidableEq, Repr

/-- Body of `ZAPXMLDefectDojoUploader._extract_finding_from_alert`
(scripts/zap-xml-defectdojo-uploader.py, lines 142-234) up to but
excluding its `except` handler.  Its very first statement,
`self._get_xml_text(alert, 'pluginid')`, raises `AttributeError`
(see `get_xml_text`); everything after it is dead code, embedded
nonetheless. -/
def extract_finding_from_alert_body (alert : XElem) (site_name : String)
    (ns : String) : Except PyErr (Option XmlFinding) := do
  let plugin_id ← get_xml_text alert "pluginid" ""
  let alert_name ← get_xml_text alert "name" ""
  let risk_code ← get_xml_text alert "riskcode" ""
  let confidence ← get_xml_text alert "confidence" ""
  let description ← get_xml_text alert "desc" ""
  let solution ← get_xml_text alert "solution" ""
  let reference ← get_xml_text alert "reference" ""
  let cwe_id ← get_xml_text alert "cweid" ""
  let wasc_id ← get_xml_text alert "wascid" ""
  if alert_name = "" || plugin_id = "" then
    return none
  let risk_level := map_risk_code_to_level risk_code
  let severity := (severity_mapping_xml.lookup risk_level).getD "Low"
  let cwe : Option Int :=
    if cwe_id ≠ "" && pyIsdigit cwe_id then
      some (Int.ofNat (natOfDigits cwe_id.data))
    else none
  let pluginVal : PluginId :=
    if pyIsdigit plugin_id then
      .asInt (Int.ofNat (natOfDigits plugin_id.data))
    else .asStr plugin_id
  let wasc : Option Int :=
    if wasc_id ≠ "" && pyIsdigit wasc_id then
      some (Int.ofNat (natOfDigits wasc_id.data))
    else none
  match findDesc alert (qualifyTag ns "instance") with
  | none =>
    return some
      { title := alert_name
        description := if description ≠ "" then description else alert_name
        severity := severity
        cwe := cwe
        references := reference
        solution := solution
        false_positive := false
        duplicate := false
        out_of_scope := false
        mitigated := none
        impact := risk_level
        confidence := map_confidence_to_level confidence
        finding_type := "Vulnerability"
        test_type := "DAST"
        static_finding := false
        dynamic_finding := true
        active := true
        verified := false
        scanner_confidence := map_confidence_to_level confidence
        owasp_top_10 := owasp_mapping_xml.lookup alert_name
        tags := ["DAST", "OWASP ZAP", "XML Import", "Web Application"]
        url := site_name
        param := none
        attack := none
        evidence := none
        method := none
        plugin_id := pluginVal
        wasc_id := wasc }
  | some inst => do
    let uri ← get_xml_text inst "uri" site_name
    let method ← get_xml_text inst "method" ""
    let param ← get_xml_text inst "param" ""
    let attack ← get_xml_text inst "attack" ""
    let evidence ← get_xml_text inst "evidence" ""
    return some
      { title := alert_name
        description := if description ≠ "" then description else alert_name
        severity := severity
        cwe := cwe
        references := reference
        solution := solution
        false_positive := false
        duplicate := false
        out_of_scope := false
        mitigated := none
        impact := risk_level
        confidence := map_confidence_to_level confidence
        finding_type := "Vulnerability"
        test_type := "DAST"
        static_finding := false
        dynamic_finding := true
        active := true
        verified := false
        scanner_confidence := map_confidence_to_level confidence
        owasp_top_10 := owasp_mapping_xml.lookup alert_name
        tags := ["DAST", "OWASP ZAP", "XML Import", "Web Application"]
        url := uri
        param := some param
        attack := some attack
        evidence := some evidence
        method := some method
        plugin_id := pluginVal
        wasc_id := wasc }

/-- `ZAPXMLDefectDojoUploader._extract_finding_from_alert`
(scripts/zap-xml-defectdojo-uploader.py, lines 142-238): the surrounding
`try/except Exception` turns any raised error into a logged warning and
`None`. -/
def extract_finding_from_alert (alert : XElem) (site_name : String)
    (ns : String) : Option XmlFinding :=
  match extract_finding_from_alert_body alert site_name ns with
  | .ok r => r
  | .error _ => none

/-- The namespace-discovery step of
`ZAPXMLDefectDojoUploader.parse_zap_xml_report`
(scripts/zap-xml-defectdojo-uploader.py, lines 107-113):
`re.match(r'\x5c\x7b(.*)\x5c\x7d', root.tag)` with a greedy group, i.e.
everything between the leading brace and the LAST closing brace;
no match (or a root tag not starting with a brace) leaves `''`. -/
def root_namespace (rootTag : String) : String :=
  if pyStartsWith rootTag "\x7b" then
    let body := rootTag.drop 1
    let parts := body.splitOn "\x7d"
    if parts.length ≥ 2 then String.intercalate "\x7d" parts.dropLast
    else ""
  else ""

/-- `ZAPXMLDefectDojoUploader.parse_zap_xml_report`
(scripts/zap-xml-defectdojo-uploader.py, lines 98-140) applied to an
already-parsed XML tree: discover the namespace from the root tag, find
all `site` descendants, within each all `alertitem` descendants, and
keep the truthy results of `_extract_finding_from_alert`. -/
def parse_zap_xml_report_findings (root : XElem) : List XmlFinding :=
  let ns := root_namespace root.tag
  let sites := findallDesc root (qualifyTag ns "site")
  sites.flatMap fun site =>
    let site_name := (site.attrib.lookup "name").getD ""
    let alerts := findallDesc site (qualifyTag ns "alertitem")
    alerts.filterMap fun a => extract_finding_from_alert a site_name ns

/- ### Concrete fixtures used by the claim theorems and witnesses -/

/-- A leaf XML element with text content. -/
def xmlLeaf (tag txt : String) : XElem := .node tag [] (some txt) []

/-- A well-formed ZAP XML `alertitem` element with the given name and
plugin id, one instance, and the usual leaf fields. -/
def sampleAlertItem (nm pid : String) : XElem :=
  .node "alertitem" [] none
    [xmlLeaf "pluginid" pid, xmlLeaf "name" nm, xmlLeaf "riskcode" "2",
     xmlLeaf "confidence" "2", xmlLeaf "desc" "d", xmlLeaf "solution" "s",
     xmlLeaf "reference" "r", xmlLeaf "cweid" "79", xmlLeaf "wascid" "8",
     .node "instances" [] none
       [.node "instance" [] none
         [xmlLeaf "uri" "http://a/x", xmlLeaf "method" "GET"]]]

/-- A well-formed ZAP XML report with two `site` elements, each holding
one `alertitem` that has both a name and a plugin id. -/
def twoSiteXmlReport : XElem :=
  .node "OWASPZAPReport" [("version", "2.12.0")] none
    [.node "site" [("name", "http://a/")] none
      [sampleAlertItem "Alert A" "100"],
     .node "site" [("name", "http://b/")] none
      [sampleAlertItem "Alert B" "200"]]

/-- An XML `alertitem` that lacks a `name` child element. -/
def xmlAlertNoName : XElem :=
  .node "alertitem" [] none [xmlLeaf "pluginid" "10096"]

/-- A JSON alert whose `cweid` is the non-numeric string
`"not-a-number"`, with one instance. -/
def badCweAlert : ZapAlert :=
  { name := some "X-Frame-Options header not set"
    risk := some "Medium"
    cweid := some "not-a-number"
    instances := [{ uri := some "http://target/", method := some "GET" }] }

/-- A site whose only alert is `badCweAlert`. -/
def badCweSite : ZapSite :=
  { atName := some "http://target/", alerts := [badCweAlert] }

/-- A JSON alert with an empty `instances` list. -/
def noInstAlert : ZapAlert :=
  { name := some "Timestamp Disclosure", risk := some "Low" }

/-- JSON alert A1 of the multi-site report of the spec's test property. -/
def alertA1 : ZapAlert :=
  { name := some "Cross Site Scripting", risk := some "High"
    instances := [{ uri := some "http://a/1" }] }

/-- JSON alert A2 of the multi-site report. -/
def alertA2 : ZapAlert :=
  { name := some "SQL Injection", risk := some "Medium"
    instances := [{ uri := some "http://a/2" }] }

/-- JSON alert A3 of the multi-site report (in the second site). -/
def alertA3 : ZapAlert :=
  { name := some "Content Type Missing", risk := some "Low"
    instances := [{ uri := some "http://b/1" }] }

/-- First site of the multi-site report, holding A1 and A2. -/
def siteA : ZapSite :=
  { atName := some "http://a/", alerts := [alertA1, alertA2] }

/-- Second site of the multi-site report, holding A3. -/
def siteB : ZapSite :=
  { atName := some "http://b/", alerts := [alertA3] }

/-- A minimal JSON alert whose extraction succeeds. -/
def goodAlert : ZapAlert :=
  { name := some "SQL Injection", instances := [{}] }

/-- A site whose only alert is `goodAlert`. -/
def goodSite : ZapSite := { alerts := [goodAlert] }

/-- The finding `process_zap_dast_report_upload [goodSite]` produces. -/
def goodUploadFinding : UploadFinding :=
  { title := "SQL Injection"
    description := ""
    severity := "Low"
    cwe := none
    references := ""
    solution := ""
    false_positive := false
    duplicate := false
    out_of_scope := false
    impact := "Low"
    confidence := "High"
    finding_type := "Vulnerability"
    test_type := "DAST"
    static_finding := false
    dynamic_finding := true
    active := true
    verified := false
    mitigated := false
    url := ""
    param := ""
    attack := ""
    evidence := ""
    request := ""
    response := ""
    scanner_confidence := "High"
    owasp_top_10 := some "A03:2021-Injection"
    tags := ["DAST", "OWASP ZAP", "Web Application"] }

/- ### Helper lemmas on the `Except` monad and the embedded operations -/

/-- `throw` in `Except` is `Except.error`. -/
theorem except_throw_eq {e : Type} {a : Type} (x : e) :
    (throw x : Except e a) = Except.error x := rfl

/-- `pure` in `Except` is `Except.ok`. -/
theorem except_pure_eq {e : Type} {a : Type} (x : a) :
    (pure x : Except e a) = Except.ok x := rfl

/-- Bind on a successful `Except` applies the continuation. -/
theorem except_bind_ok {e : Type} {a b : Type} (x : a)
    (f : a → Except e b) : (Except.ok x >>= f) = f x := rfl

/-- Bind on a failed `Except` keeps the error. -/
theorem except_bind_err {e : Type} {a b : Type} (x : e)
    (f : a → Except e b) :
    ((Except.error x : Except e a) >>= f) = Except.error x := rfl

/-- Map over a failed `Except` keeps the error. -/
theorem except_map_err {e : Type} {a b : Type} (f : a → b) (x : e) :
    (f <$> (Except.error x : Except e a)) = Except.error x := rfl

/-- Map over a successful `Except` applies the function. -/
theorem except_map_ok {e : Type} {a b : Type} (f : a → b) (x : a) :
    (f <$> (Except.ok x : Except e a)) = Except.ok (f x) := rfl

/-- Every `_get_xml_text` call raises `AttributeError`, because
ElementTree elements have no `nsmap` attribute. -/
theorem get_xml_text_attributeError (e : XElem) (t d : String) :
    get_xml_text e t d = .error PyErr.attributeError := rfl

/-- Consequently `_extract_finding_from_alert` returns `None` on every
alert: its first statement raises and the `except` swallows the error. -/
theorem extract_finding_from_alert_eq_none (a : XElem) (s n : String) :
    extract_finding_from_alert a s n = none := rfl

/-- Consequently `parse_zap_xml_report` extracts zero findings from
every XML tree. -/
theorem parse_zap_xml_report_findings_eq_nil (root : XElem) :
    parse_zap_xml_report_findings root = [] := by
  unfold parse_zap_xml_report_findings
  simp [extract_finding_from_alert_eq_none]

/-- A truthy non-numeric `cweid` makes the DAST extractor return `None`
(the `ValueError` from `int()` is caught by its `except`). -/
theorem create_finding_nonnumeric_cwe_none {M : Type} (meta : M)
    (today : String) (alert : ZapAlert)
    (h1 : pyTruthy alert.cweid = true)
    (h2 : pyInt? (alert.cweid.getD "") = none) :
    create_finding_from_alert meta today alert = none := by
  unfold create_finding_from_alert create_finding_from_alert_body
  cases hi : alert.instances with
  | nil => rfl
  | cons p rest => simp [h1, h2, except_throw_eq, except_map_err]

/-- A truthy non-numeric `cweid` makes `build_upload_finding` raise
`ValueError`. -/
theorem build_upload_finding_bad (site : ZapSite) (alert : ZapAlert)
    (inst : ZapInstance)
    (h1 : pyTruthy alert.cweid = true)
    (h2 : pyInt? (alert.cweid.getD "") = none) :
    build_upload_finding site alert inst = .error PyErr.valueError := by
  unfold build_upload_finding
  simp [h1, h2, except_throw_eq, except_map_err]

/-- `build_upload_finding` either succeeds or raises `ValueError` —
no other error is possible. -/
theorem build_upload_finding_ok_cases (site : ZapSite) (alert : ZapAlert)
    (inst : ZapInstance) :
    (∃ f, build_upload_finding site alert inst = .ok f) ∨
    build_upload_finding site alert inst = .error PyErr.valueError := by
  unfold build_upload_finding
  cases h1 : pyTruthy alert.cweid with
  | false => simp [except_pure_eq, except_bind_ok]
  | true =>
    cases h2 : pyInt? (alert.cweid.getD "") with
    | none => simp [h2, except_throw_eq, except_map_err]
    | some n => simp [h2, except_pure_eq, except_bind_ok]

/-- One loop iteration on an alert with instances and a truthy
non-numeric `cweid` raises `ValueError`. -/
theorem upload_alert_step_bad (site : ZapSite) (acc : List UploadFinding)
    (alert : ZapAlert)
    (h1 : pyTruthy alert.cweid = true)
    (h2 : pyInt? (alert.cweid.getD "") = none)
    (h3 : alert.instances ≠ []) :
    upload_alert_step site acc alert = .error PyErr.valueError := by
  unfold upload_alert_step
  cases hi : alert.instances with
  | nil => exact absurd hi h3
  | cons p rest =>
    simp [build_upload_finding_bad site alert p h1 h2, except_bind_err]

/-- One loop iteration either succeeds or raises `ValueError`. -/
theorem upload_alert_step_cases (site : ZapSite)
    (acc : List UploadFinding) (alert : ZapAlert) :
    (∃ l, upload_alert_step site acc alert = .ok l) ∨
    upload_alert_step site acc alert = .error PyErr.valueError := by
  unfold upload_alert_step
  cases hi : alert.instances with
  | nil => exact Or.inl ⟨acc, rfl⟩
  | cons p rest =>
    rcases build_upload_finding_ok_cases site alert p with ⟨f, hf⟩ | hf
    · exact Or.inl ⟨acc ++ [f], by simp [hf, except_bind_ok]⟩
    · exact Or.inr (by simp [hf, except_bind_err])

/-- If any alert of the list has instances and a truthy non-numeric
`cweid`, the whole alert loop raises `ValueError`. -/
theorem foldlM_upload_bad (site : ZapSite) :
    ∀ (alerts : List ZapAlert) (acc : List UploadFinding),
      (∃ a ∈ alerts, pyTruthy a.cweid = true ∧
        pyInt? (a.cweid.getD "") = none ∧ a.instances ≠ []) →
      alerts.foldlM (upload_alert_step site) acc = .error PyErr.valueError
  | [], acc, h => by simp at h
  | a :: as, acc, h => by
    rcases upload_alert_step_cases site acc a with ⟨l, hl⟩ | hl
    · rcases h with ⟨b, hb, hbad⟩
      rcases List.mem_cons.mp hb with rfl | hb2
      · rw [upload_alert_step_bad site acc b hbad.1 hbad.2.1 hbad.2.2] at hl
        exact absurd hl (by simp)
      · rw [List.foldlM_cons, hl, except_bind_ok]
        exact foldlM_upload_bad site as l ⟨b, hb2, hbad⟩
    · rw [List.foldlM_cons, hl, except_bind_err]

/-- Every finding `build_upload_finding` returns carries the literal
confidence values `'High'`. -/
theorem build_upload_finding_confidence (site : ZapSite)
    (alert : ZapAlert) (inst : ZapInstance) (f : UploadFinding)
    (h : build_upload_finding site alert inst = .ok f) :
    f.confidence = "High" ∧ f.scanner_confidence = "High" := by
  unfold build_upload_finding at h
  cases h1 : pyTruthy alert.cweid with
  | false =>
    simp [h1, except_pure_eq, except_bind_ok] at h
    subst h; exact ⟨rfl, rfl⟩
  | true =>
    cases h2 : pyInt? (alert.cweid.getD "") with
    | none => simp [h1, h2, except_throw_eq, except_map_err] at h
    | some n =>
      simp [h1, h2, except_pure_eq, except_bind_ok] at h
      subst h; exact ⟨rfl, rfl⟩

/-- A loop iteration only adds findings with confidence `'High'`. -/
theorem upload_alert_step_confidence (site : ZapSite)
    (acc l : List UploadFinding) (alert : ZapAlert)
    (h : upload_alert_step site acc alert = .ok l) :
    ∀ f ∈ l, f ∈ acc ∨
      (f.confidence = "High" ∧ f.scanner_confidence = "High") := by
  unfold upload_alert_step at h
  cases hi : alert.instances with
  | nil =>
    rw [hi] at h
    cases h
    exact fun f hf => Or.inl hf
  | cons p rest =>
    rw [hi] at h
    cases hb : build_upload_finding site alert p with
    | error e => simp [hb, except_bind_err] at h
    | ok g =>
      simp [hb, except_bind_ok, except_pure_eq] at h
      subst h
      intro f hf
      rcases List.mem_append.mp hf with hf2 | hf2
      · exact Or.inl hf2
      · rcases List.mem_singleton.mp hf2 with rfl
        exact Or.inr (build_upload_finding_confidence site alert p f hb)

/-- The alert loop only adds findings with confidence `'High'`. -/
theorem foldlM_upload_confidence (site : ZapSite) :
    ∀ (alerts : List ZapAlert) (acc res : List UploadFinding),
      alerts.foldlM (upload_alert_step site) acc = .ok res →
      ∀ f ∈ res, f ∈ acc ∨
        (f.confidence = "High" ∧ f.scanner_confidence = "High")
  | [], acc, res, h => by
    simp [List.foldlM_nil, except_pure_eq] at h
    subst h; exact fun f hf => Or.inl hf
  | a :: as, acc, res, h => by
    rw [List.foldlM_cons] at h
    cases hs : upload_alert_step site acc a with
    | error e => rw [hs, except_bind_err] at h; cases h
    | ok l =>
      rw [hs, except_bind_ok] at h
      intro f hf
      rcases foldlM_upload_confidence site as l res h f hf with hf2 | hf2
      · rcases upload_alert_step_confidence site acc l a hs f hf2 with
          h3 | h3
        · exact Or.inl h3
        · exact Or.inr h3
      · exact Or.inr hf2

/-- An alert with an empty `instances` list is dropped by the DAST
extractor. -/
theorem create_finding_no_instances_none {M : Type} (meta : M)
    (today : String) (alert : ZapAlert)
    (h : alert.instances = []) :
    create_finding_from_alert meta today alert = none := by
  unfold create_finding_from_alert create_finding_from_alert_body
  rw [h]
  exact rfl

/-- Removing an alert the extractor drops does not change the batch. -/
theorem filterMap_skip_middle {M : Type} (meta : M) (today : String)
    (pre post : List ZapAlert) (bad : ZapAlert)
    (h : create_finding_from_alert meta today bad = none) :
    (pre ++ bad :: post).filterMap (create_finding_from_alert meta today)
      = (pre ++ post).filterMap (create_finding_from_alert meta today) := by
  simp [List.filterMap_append, List.filterMap_cons, h]

/- ### Claim theorems -/

/-- C1: The two JSON-path severity mappers implement different policies:
on the raw risk label `"High"` the dast-defectdojo-enhanced.py mapper
escalates to `"Critical"` while the upload-reports-enhanced.py mapper
returns `"High"` unchanged, so the two functions are not extensionally
equal. -/
theorem c1_severity_policies_differ :
    map_zap_risk_to_severity_dast "High" = "Critical" ∧
    map_zap_risk_to_severity_upload "High" = "High" ∧
    map_zap_risk_to_severity_dast "High" ≠
      map_zap_risk_to_severity_upload "High" ∧
    ¬ (∀ s : String, map_zap_risk_to_severity_dast s =
        map_zap_risk_to_severity_upload s) :=
  ⟨rfl, rfl, by decide, fun h => absurd (h "High") (by decide)⟩

/-- C2: Contrary to the claim, `parse_zap_xml_report` extracts ZERO
findings from EVERY XML tree — in particular from a well-formed
two-site report whose two alertitems each have a name and a plugin id —
because `_get_xml_text` accesses the nonexistent `Element.nsmap`
attribute (an lxml API) and the resulting `AttributeError` makes every
per-alert extraction return `None`. -/
theorem c2_xml_parser_extracts_no_findings :
    (∀ root : XElem, parse_zap_xml_report_findings root = []) ∧
    (findallDesc twoSiteXmlReport "site").length = 2 ∧
    ((findallDesc twoSiteXmlReport "site").map
      (fun s => (findallDesc s "alertitem").length)) = [1, 1] ∧
    parse_zap_xml_report_findings twoSiteXmlReport = [] ∧
    (parse_zap_xml_report_findings twoSiteXmlReport).length ≠ 2 :=
  ⟨parse_zap_xml_report_findings_eq_nil, by decide, by decide, rfl,
   by decide⟩

/-- C3 counterexample: on the concrete alert whose `cweid` is
`"not-a-number"` (with one instance), the DAST extractor produces NO
finding at all — not a finding with cwe 0 — and the
upload-reports-enhanced.py variant fails the whole batch with a
`ValueError` escaping the per-alert loop. -/
theorem c3_nonnumeric_cwe_counterexample :
    pyTruthy badCweAlert.cweid = true ∧
    pyInt? (badCweAlert.cweid.getD "") = none ∧
    badCweAlert.instances ≠ [] ∧
    create_finding_from_alert () "2025-10-12" badCweAlert = none ∧
    process_zap_dast_report_upload [badCweSite] =
      .error PyErr.valueError :=
  ⟨rfl, rfl, by decide, rfl, rfl⟩

/-- C3 (amended): an alert whose truthy `cweid` fails `int()` never
yields a finding with cwe 0; in dast-defectdojo-enhanced.py the
extractor's own `except` catches the `ValueError` and drops the alert
(returns `None`), while in upload-reports-enhanced.py the `ValueError`
escapes the per-alert loop, so the whole report's finding assembly
fails. -/
theorem c3_nonnumeric_cwe_drops_alert_or_fails_batch :
    (∀ (M : Type) (meta : M) (today : String) (alert : ZapAlert),
        pyTruthy alert.cweid = true →
        pyInt? (alert.cweid.getD "") = none →
        create_finding_from_alert meta today alert = none) ∧
    (∀ (site : ZapSite) (rest : List ZapSite),
        (∃ a ∈ site.alerts, pyTruthy a.cweid = true ∧
          pyInt? (a.cweid.getD "") = none ∧ a.instances ≠ []) →
        process_zap_dast_report_upload (site :: rest) =
          .error PyErr.valueError) := by
  constructor
  · intro M meta today alert h1 h2
    exact create_finding_nonnumeric_cwe_none meta today alert h1 h2
  · intro site rest h
    unfold process_zap_dast_report_upload
    exact foldlM_upload_bad site site.alerts [] h

/-- C3 witness: the amended claim instantiated at the concrete
non-numeric-cwe alert and the concrete one-site report. -/
theorem c3_nonnumeric_cwe_witness :
    create_finding_from_alert () "2025-10-12" badCweAlert = none ∧
    process_zap_dast_report_upload [badCweSite] =
      .error PyErr.valueError :=
  ⟨c3_nonnumeric_cwe_drops_alert_or_fails_batch.1 Unit () "2025-10-12"
      badCweAlert rfl rfl,
   c3_nonnumeric_cwe_drops_alert_or_fails_batch.2 badCweSite []
      ⟨badCweAlert, by simp [badCweSite], rfl, rfl, by decide⟩⟩

/-- C4: both JSON-variant parsers read only the first entry of the
top-level `site` list: the assembled findings are exactly the
extraction over the first site's alerts, independent of all later
sites; concretely, for `site: [\x7balerts: [A1, A2]\x7d, \x7balerts: [A3]\x7d]`
the result equals the result for the first site alone and has exactly
two findings. -/
theorem c4_json_parser_first_site_only :
    (∀ (M : Type) (meta : M) (today : String) (site : ZapSite)
        (rest : List ZapSite),
        process_zap_dast_report_findings meta today (site :: rest) =
          site.alerts.filterMap (create_finding_from_alert meta today) ∧
        process_zap_dast_report_findings meta today (site :: rest) =
          process_zap_dast_report_findings meta today [site]) ∧
    (∀ (site : ZapSite) (rest : List ZapSite),
        process_zap_dast_report_upload (site :: rest) =
          site.alerts.foldlM (upload_alert_step site) [] ∧
        process_zap_dast_report_upload (site :: rest) =
          process_zap_dast_report_upload [site]) ∧
    process_zap_dast_report_upload [siteA, siteB] =
      process_zap_dast_report_upload [siteA] ∧
    (process_zap_dast_report_upload [siteA, siteB]).map List.length =
      .ok 2 ∧
    (process_zap_dast_report_findings () "2025-10-12"
      [siteA, siteB]).length = 2 :=
  ⟨fun _ _ _ _ _ => ⟨rfl, rfl⟩, fun _ _ => ⟨rfl, rfl⟩, rfl, rfl, rfl⟩

/-- C5: alerts with an empty or missing `instances` list (JSON path)
and XML alertitems lacking a `name` or a `pluginid` child are dropped
without raising: the extractor returns `None`, the alert contributes no
finding, and the extraction of the surrounding batch is unchanged. -/
theorem c5_unusable_alerts_skipped :
    (∀ (M : Type) (meta : M) (today : String) (alert : ZapAlert),
        alert.instances = [] →
        create_finding_from_alert meta today alert = none) ∧
    (∀ (M : Type) (meta : M) (today : String)
        (pre post : List ZapAlert) (bad : ZapAlert),
        bad.instances = [] →
        (pre ++ bad :: post).filterMap
            (create_finding_from_alert meta today) =
          (pre ++ post).filterMap
            (create_finding_from_alert meta today)) ∧
    (∀ (alert : XElem) (site_name ns : String),
        findDesc alert (qualifyTag ns "name") = none ∨
        findDesc alert (qualifyTag ns "pluginid") = none →
        extract_finding_from_alert alert site_name ns = none) ∧
    (∀ (site_name ns : String) (pre post : List XElem) (bad : XElem),
        (pre ++ bad :: post).filterMap
            (fun a => extract_finding_from_alert a site_name ns) =
          (pre ++ post).filterMap
            (fun a => extract_finding_from_alert a site_name ns)) := by
  refine ⟨?_, ?_, ?_, ?_⟩
  · intro M meta today alert h
    exact create_finding_no_instances_none meta today alert h
  · intro M meta today pre post bad h
    exact filterMap_skip_middle meta today pre post bad
      (create_finding_no_instances_none meta today bad h)
  · intro alert site_name ns _
    exact extract_finding_from_alert_eq_none alert site_name ns
  · intro site_name ns pre post bad
    simp [List.filterMap_append, List.filterMap_cons,
      extract_finding_from_alert_eq_none]

/-- C5 witness: the claim instantiated at a concrete zero-instance JSON
alert, a concrete batch around it, a concrete nameless XML alertitem,
and a concrete XML batch around it. -/
theorem c5_unusable_alerts_skipped_witness :
    create_finding_from_alert () "2025-10-12" noInstAlert = none ∧
    ([alertA1] ++ noInstAlert :: [alertA2]).filterMap
        (create_finding_from_alert () "2025-10-12") =
      ([alertA1] ++ [alertA2]).filterMap
        (create_finding_from_alert () "2025-10-12") ∧
    extract_finding_from_alert xmlAlertNoName "http://a/" "" = none ∧
    ([sampleAlertItem "Alert A" "100"] ++ xmlAlertNoName ::
        [sampleAlertItem "Alert B" "200"]).filterMap
        (fun a => extract_finding_from_alert a "http://a/" "") =
      ([sampleAlertItem "Alert A" "100"] ++
        [sampleAlertItem "Alert B" "200"]).filterMap
        (fun a => extract_finding_from_alert a "http://a/" "") :=
  ⟨c5_unusable_alerts_skipped.1 Unit () "2025-10-12" noInstAlert rfl,
   c5_unusable_alerts_skipped.2.1 Unit () "2025-10-12" [alertA1]
     [alertA2] noInstAlert rfl,
   c5_unusable_alerts_skipped.2.2.1 xmlAlertNoName "http://a/" ""
     (Or.inl rfl),
   c5_unusable_alerts_skipped.2.2.2 "http://a/" ""
     [sampleAlertItem "Alert A" "100"]
     [sampleAlertItem "Alert B" "200"] xmlAlertNoName⟩

/-- C6: the dast-defectdojo-enhanced.py severity mapper is total into
the fixed five-element severity vocabulary, maps High to Critical,
Medium to High, Low to Medium, Informational to Low, and every other
input to Info. -/
theorem c6_dast_severity_mapping_total :
    (∀ s : String, map_zap_risk_to_severity_dast s ∈
       ["Critical", "High", "Medium", "Low", "Info"]) ∧
    map_zap_risk_to_severity_dast "High" = "Critical" ∧
    map_zap_risk_to_severity_dast "Medium" = "High" ∧
    map_zap_risk_to_severity_dast "Low" = "Medium" ∧
    map_zap_risk_to_severity_dast "Informational" = "Low" ∧
    (∀ s : String, s ∉ ["High", "Medium", "Low", "Informational"] →
       map_zap_risk_to_severity_dast s = "Info") := by
  refine ⟨fun s => ?_, rfl, rfl, rfl, rfl, fun s hs => ?_⟩
  · unfold map_zap_risk_to_severity_dast risk_mapping_dast
    simp only [List.lookup]
    repeat' split <;> simp_all
  · unfold map_zap_risk_to_severity_dast risk_mapping_dast
    simp only [List.lookup]
    simp only [List.mem_cons, not_or] at hs
    repeat' split <;> simp_all

/-- C6 witness: the totality and the default case instantiated at
concrete labels. -/
theorem c6_dast_severity_mapping_total_witness :
    map_zap_risk_to_severity_dast "garbage" = "Info" ∧
    map_zap_risk_to_severity_dast "High" ∈
      ["Critical", "High", "Medium", "Low", "Info"] :=
  ⟨c6_dast_severity_mapping_total.2.2.2.2.2 "garbage" (by decide),
   c6_dast_severity_mapping_total.1 "High"⟩

/-- C7: with the remote client modelled by its responses, a 200 search
with an empty `results` list makes `create_product_if_not_exists` issue
one GET then one POST, returning the POST body's id on a 201 and the
sentinel `None` otherwise; a 200 search with at least one result makes
it issue one GET, zero POSTs, and return the first result's id. -/
theorem c7_product_search_then_create :
    ∀ (search : SearchResp) (post : CreateResp),
      search.status = 200 →
      ((search.results = [] →
         (create_product_if_not_exists search post).1 =
           [ApiReq.get, ApiReq.post] ∧
         (post.status = 201 →
            (create_product_if_not_exists search post).2 =
              some post.id) ∧
         (post.status ≠ 201 →
            (create_product_if_not_exists search post).2 = none)) ∧
       (∀ r rs, search.results = r :: rs →
         create_product_if_not_exists search post =
           ([ApiReq.get], some r.id))) := by
  intro search post hst
  unfold create_product_if_not_exists product_create_step
  rw [hst]
  constructor
  · intro hres
    rw [hres]
    refine ⟨rfl, fun h201 => ?_, fun h201 => ?_⟩
    · simp [h201]
    · simp [h201]
  · intro r rs hres
    rw [hres]
    simp

/-- C7 witness: the claim instantiated at concrete collaborator
responses for the not-found, found, and failed-creation cases. -/
theorem c7_product_search_then_create_witness :
    (create_product_if_not_exists ⟨200, []⟩ ⟨201, 7⟩).1 =
      [ApiReq.get, ApiReq.post] ∧
    (create_product_if_not_exists ⟨200, []⟩ ⟨201, 7⟩).2 = some 7 ∧
    (create_product_if_not_exists ⟨200, []⟩ ⟨500, 7⟩).2 = none ∧
    create_product_if_not_exists ⟨200, [⟨5, ""⟩]⟩ ⟨201, 7⟩ =
      ([ApiReq.get], some 5) :=
  ⟨((c7_product_search_then_create ⟨200, []⟩ ⟨201, 7⟩ rfl).1 rfl).1,
   ((c7_product_search_then_create ⟨200, []⟩ ⟨201, 7⟩ rfl).1 rfl).2.1 rfl,
   ((c7_product_search_then_create ⟨200, []⟩ ⟨500, 7⟩ rfl).1 rfl).2.2
     (by decide),
   (c7_product_search_then_create ⟨200, [⟨5, ""⟩]⟩ ⟨201, 7⟩ rfl).2
     ⟨5, ""⟩ [] rfl⟩

/-- C8: when the 200 engagement search contains a result whose
`target_start` begins with today's date, that (first such) engagement's
id is returned and no creation POST is issued; a POST is issued exactly
when no result matches today's date prefix — the client creates at most
one same-day engagement per name and product. -/
theorem c8_engagement_same_day_reuse :
    ∀ (today : String) (search : SearchResp) (post : CreateResp),
      search.status = 200 →
      ((∀ e, search.results.find?
            (fun x => pyStartsWith x.target_start today) = some e →
          create_engagement_if_not_exists today search post =
            ([ApiReq.get], some e.id)) ∧
       (search.results.find?
            (fun x => pyStartsWith x.target_start today) = none →
          (create_engagement_if_not_exists today search post).1 =
            [ApiReq.get, ApiReq.post] ∧
          (post.status = 201 →
            (create_engagement_if_not_exists today search post).2 =
              some post.id)) ∧
       (ApiReq.post ∈
          (create_engagement_if_not_exists today search post).1 ↔
          ∀ e ∈ search.results,
            pyStartsWith e.target_start today = false)) := by
  intro today search post hst
  unfold create_engagement_if_not_exists engagement_create_step
  rw [hst]
  refine ⟨fun e he => ?_, fun hn => ?_, ?_⟩
  · simp [he]
  · rw [hn]
    refine ⟨rfl, fun h201 => by simp [h201]⟩
  · cases hf : search.results.find?
        (fun x => pyStartsWith x.target_start today) with
    | none =>
      simp only [hf]
      constructor
      · intro _ e he
        have := List.find?_eq_none.mp hf e he
        simpa using this
      · intro _
        simp
    | some e =>
      simp only [hf]
      constructor
      · intro hmem
        simp at hmem
      · intro hall
        have hmem := List.find?_some hf
        have hin := List.mem_of_find?_eq_some hf
        have := hall e hin
        rw [this] at hmem
        cases hmem

/-- C8 witness: the claim instantiated at a search containing a
same-day engagement (reused, no POST) and at one containing only an
older engagement (POST issued, created id adopted). -/
theorem c8_engagement_same_day_reuse_witness :
    create_engagement_if_not_exists "2025-10-12"
        ⟨200, [⟨3, "2025-10-11T09:00:00"⟩, ⟨4, "2025-10-12T08:00:00"⟩]⟩
        ⟨201, 9⟩ = ([ApiReq.get], some 4) ∧
    (create_engagement_if_not_exists "2025-10-12"
        ⟨200, [⟨3, "2025-10-11T09:00:00"⟩]⟩ ⟨201, 9⟩).1 =
      [ApiReq.get, ApiReq.post] ∧
    (create_engagement_if_not_exists "2025-10-12"
        ⟨200, [⟨3, "2025-10-11T09:00:00"⟩]⟩ ⟨201, 9⟩).2 = some 9 :=
  ⟨(c8_engagement_same_day_reuse "2025-10-12"
      ⟨200, [⟨3, "2025-10-11T09:00:00"⟩, ⟨4, "2025-10-12T08:00:00"⟩]⟩
      ⟨201, 9⟩ rfl).1 ⟨4, "2025-10-12T08:00:00"⟩ rfl,
   ((c8_engagement_same_day_reuse "2025-10-12"
      ⟨200, [⟨3, "2025-10-11T09:00:00"⟩]⟩ ⟨201, 9⟩ rfl).2.1 rfl).1,
   ((c8_engagement_same_day_reuse "2025-10-12"
      ⟨200, [⟨3, "2025-10-11T09:00:00"⟩]⟩ ⟨201, 9⟩ rfl).2.1 rfl).2 rfl⟩

/-- C9 counterexample: the unmatched non-empty reference `"WASC-99"` is
returned unchanged by `extract_owasp_category` — neither the `"Unknown"`
nor the `"Other"` sentinel the claim promises. -/
theorem c9_unmatched_reference_counterexample :
    extract_owasp_category "WASC-99" = "WASC-99" ∧
    ¬ (extract_owasp_category "WASC-99" = "Unknown" ∨
       extract_owasp_category "WASC-99" = "Other") :=
  ⟨rfl, by decide⟩

/-- C9 (amended): the OWASP mappers are total (never raise); an empty
or missing reference yields `"Unknown"` in `extract_owasp_category`, a
matched reference yields its table label, an UNMATCHED non-empty
reference is passed through unchanged (the `"Other"` default is dead
code), and `get_owasp_mapping` yields `None` for unmatched names. -/
theorem c9_owasp_mappers_never_raise :
    extract_owasp_category "" = "Unknown" ∧
    (∀ r, r ≠ "" → wasc_mapping.lookup r = none →
        extract_owasp_category r = r) ∧
    (∀ r v, wasc_mapping.lookup r = some v →
        extract_owasp_category r = v) ∧
    (∀ n, owasp_name_mapping.lookup n = none →
        get_owasp_mapping n = none) := by
  refine ⟨rfl, fun r hr hl => ?_, fun r v h => ?_, fun n h => ?_⟩
  · unfold extract_owasp_category
    simp [hr, hl]
  · by_cases hr : r = ""
    · subst hr
      rw [show wasc_mapping.lookup "" = none from rfl] at h
      cases h
    · unfold extract_owasp_category
      simp [hr, h]
  · unfold get_owasp_mapping
    exact h

/-- C9 witness: the amended claim instantiated at a concrete unmatched
reference, a concrete matched reference, and a concrete unmatched alert
name. -/
theorem c9_owasp_mappers_never_raise_witness :
    extract_owasp_category "Some Custom Reference" =
      "Some Custom Reference" ∧
    extract_owasp_category "WASC-3" = "XSS" ∧
    get_owasp_mapping "No Such Alert" = none :=
  ⟨c9_owasp_mappers_never_raise.2.1 "Some Custom Reference"
     (by decide) rfl,
   c9_owasp_mappers_never_raise.2.2.1 "WASC-3" "XSS" rfl,
   c9_owasp_mappers_never_raise.2.2.2 "No Such Alert" rfl⟩

/-- C10: every finding the upload-reports-enhanced.py JSON path
assembles carries the constant confidence and scanner_confidence
`"High"`, independent of the alert and its instances. -/
theorem c10_upload_confidence_constant :
    ∀ (sites : List ZapSite) (fs : List UploadFinding)
      (f : UploadFinding),
      process_zap_dast_report_upload sites = .ok fs → f ∈ fs →
      f.confidence = "High" ∧ f.scanner_confidence = "High" := by
  intro sites fs f hok hmem
  cases sites with
  | nil =>
    unfold process_zap_dast_report_upload at hok
    simp [except_pure_eq] at hok
    subst hok
    simp at hmem
  | cons site rest =>
    unfold process_zap_dast_report_upload at hok
    rcases foldlM_upload_confidence site site.alerts [] fs hok f hmem
      with h | h
    · simp at h
    · exact h

/-- C10 witness: the claim instantiated at a concrete one-alert report
and its concrete output finding. -/
theorem c10_upload_confidence_constant_witness :
    goodUploadFinding.confidence = "High" ∧
    goodUploadFinding.scanner_confidence = "High" :=
  c10_upload_confidence_constant [goodSite] [goodUploadFinding]
    goodUploadFinding rfl (List.mem_singleton.mpr rfl)
